import Mathlib

/-!
Verification of the `binder` crate (src/src/lib.rs): a single-owner,
runtime-checked exclusive-access cell `Property<T>` handing out
`PropertyBinding<T>` handles, with an `Arc<AtomicBool>` lock flag shared
between the cell and its bindings.

The embedding passes the observable state of one `Property` explicitly:
the owned payload (`property`, the contents of the `UnsafeCell<T>`), the
shared lock flag (`mut_lock`, the contents of the `AtomicBool`), and a
ghost counter `live` of currently live `PropertyBinding`s issued by this
property (ghost instrumentation used only to state the single-owner
invariant; it does not influence any operation's result).  Panicking
paths are modelled as `Except.error` carrying the exact panic message the
source formats.  `AtomicBool::swap(v, SeqCst)` is modelled as reading the
current flag and replacing it by `v` in one step, which is exactly its
semantics as a single atomic read-modify-write.
-/

namespace Binder

/-- State of one `Property<T>` (struct `Property` in lib.rs): the payload
stored in the `UnsafeCell`, the shared `AtomicBool` lock flag, and a ghost
count of live bindings issued by this property. -/
structure Property (T : Type) where
  property : T
  mut_lock : Bool
  live : Nat
  deriving Repr, DecidableEq

/-- Panic message formatted by `Property::bind` when the property is already
bound; `typeName` stands for `std::any::type_name::<T>()`. -/
def bindPanicMsg (typeName : String) : String :=
  "PropertyBinding<" ++ typeName ++ ">: Tried to bind a property that was already bound!"

/-- Panic message formatted by `PropertyBinding::drop` when the lock is
already unlocked; `typeName` stands for `std::any::type_name::<T>()`. -/
def dropPanicMsg (typeName : String) : String :=
  "PropertyBinding<" ++ typeName ++ ">: Tried to drop a lock that was already unlocked!"

/-- Model of `Property::new` (lib.rs lines 93-98): owns the value, lock flag
initialised to `false`, no live binding. -/
def Property.new {T : Type} (value : T) : Property T :=
  { property := value, mut_lock := false, live := 0 }

/-- Model of `Property::bind` (lib.rs lines 103-112): `swap(true)` on the
lock flag; if it was already locked, panic (modelled as `Except.error`
carrying the formatted panic message), otherwise return the state holding a
fresh live binding to the owned value. -/
def Property.bind {T : Type} (s : Property T) (typeName : String) :
    Except String (Property T) :=
  let was_locked := s.mut_lock
  let s1 : Property T := { s with mut_lock := true }
  if was_locked then
    Except.error (bindPanicMsg typeName)
  else
    Except.ok { s1 with live := s.live + 1 }

/-- Model of `Property::try_bind` (lib.rs lines 117-128): the same
`swap(true)`; failure yields `Err(())` instead of panicking.  The first
component is the returned `Result` (payload elided, the binding lives in
the state), the second the state of the property after the call. -/
def Property.try_bind {T : Type} (s : Property T) :
    Except Unit Unit × Property T :=
  let was_locked := s.mut_lock
  let s1 : Property T := { s with mut_lock := true }
  if was_locked then
    (Except.error (), s1)
  else
    (Except.ok (), { s1 with live := s.live + 1 })

/-- Model of `PropertyBinding::drop` (lib.rs lines 37-43): `swap(false)` on
the shared lock; if it was already unlocked, panic with the formatted
message.  Dropping consumes the binding, so the ghost live count
decreases. -/
def PropertyBinding.drop {T : Type} (s : Property T) (typeName : String) :
    Except String (Property T) :=
  let was_locked := s.mut_lock
  let s1 : Property T := { s with mut_lock := false }
  if was_locked = false then
    Except.error (dropPanicMsg typeName)
  else
    Except.ok { s1 with live := s.live - 1 }

/-- Model of `PropertyBinding::deref` (lib.rs lines 23-29): reading through
the binding's `NonNull<T>` pointer yields the property's owned value. -/
def PropertyBinding.deref {T : Type} (s : Property T) : T :=
  s.property

/-- Model of `PropertyBinding::deref_mut` (lib.rs lines 31-35) followed by
an assignment: writing `w` through the binding's pointer replaces the owned
value in place; lock flag and live bindings are untouched. -/
def PropertyBinding.deref_mut {T : Type} (s : Property T) (w : T) : Property T :=
  { s with property := w }

/-- Non-panicking steps a client can perform on one property: a successful
`bind`, any `try_bind` (its failure leaves a state too), dropping a live
binding, and writing through a live binding.  Panicking paths abort the
calling context and yield no successor state. -/
inductive Step {T : Type} : Property T → Property T → Prop
  | bind_ok (s s' : Property T) (tn : String) :
      Property.bind s tn = Except.ok s' → Step s s'
  | try_bind_any (s : Property T) :
      Step s (Property.try_bind s).2
  | drop_ok (s s' : Property T) (tn : String) :
      1 ≤ s.live → PropertyBinding.drop s tn = Except.ok s' → Step s s'
  | write (s : Property T) (w : T) :
      1 ≤ s.live → Step s (PropertyBinding.deref_mut s w)

/-- The lock/ownership invariant: the flag is `true` exactly when one live
binding exists, `false` exactly when none does, and live bindings never
exceed one. -/
def Inv {T : Type} (s : Property T) : Prop :=
  (s.mut_lock = true ↔ s.live = 1) ∧ (s.mut_lock = false ↔ s.live = 0) ∧ s.live ≤ 1

/-- States reachable from a freshly constructed property by `Step`. -/
def Reachable {T : Type} (v : T) (s : Property T) : Prop :=
  Relation.ReflTransGen Step (Property.new v) s

theorem Inv_new {T : Type} (v : T) : Inv (Property.new v) := by
  refine ⟨?_, ?_, ?_⟩ <;> simp [Property.new]

theorem Inv_step {T : Type} {s s' : Property T} (hI : Inv s) (hs : Step s s') :
    Inv s' := by
  obtain ⟨h1, h2, h3⟩ := hI
  cases hs with
  | bind_ok s2 tn h =>
    cases hb : s.mut_lock with
    | true => simp [Property.bind, hb] at h
    | false =>
      simp [Property.bind, hb] at h
      have hl0 : s.live = 0 := h2.mp hb
      refine ⟨?_, ?_, ?_⟩ <;> simp [← h, Inv, hl0]
  | try_bind_any =>
    cases hb : s.mut_lock with
    | true =>
      have hl1 : s.live = 1 := h1.mp hb
      refine ⟨?_, ?_, ?_⟩ <;> simp [Property.try_bind, hb, hl1]
    | false =>
      have hl0 : s.live = 0 := h2.mp hb
      refine ⟨?_, ?_, ?_⟩ <;> simp [Property.try_bind, hb, hl0]
  | drop_ok s2 tn hlive h =>
    cases hb : s.mut_lock with
    | false => simp [PropertyBinding.drop, hb] at h
    | true =>
      simp [PropertyBinding.drop, hb] at h
      have hl1 : s.live = 1 := h1.mp hb
      refine ⟨?_, ?_, ?_⟩ <;> simp [← h, hl1]
  | write w hlive =>
    exact ⟨h1, h2, h3⟩

/-- C1: at every state reachable from a freshly constructed property by the
operations (`new`, `bind`, `try_bind`, binding drop, write), the lock flag
is `true` iff exactly one live binding issued by this property exists,
`false` iff none exists, and the number of live bindings never exceeds 1. -/
theorem lock_flag_tracks_live_bindings {T : Type} (v : T) (s : Property T)
    (h : Reachable v s) :
    (s.mut_lock = true ↔ s.live = 1) ∧ (s.mut_lock = false ↔ s.live = 0)
      ∧ s.live ≤ 1 := by
  induction h with
  | refl => exact Inv_new v
  | tail _ hstep ih => exact Inv_step ih hstep

theorem lock_flag_tracks_live_bindings_witness :
    ((Property.new (0 : Nat)).mut_lock = true ↔ (Property.new (0 : Nat)).live = 1)
    ∧ ((Property.new (0 : Nat)).mut_lock = false ↔ (Property.new (0 : Nat)).live = 0)
    ∧ (Property.new (0 : Nat)).live ≤ 1 :=
  lock_flag_tracks_live_bindings 0 (Property.new 0) Relation.ReflTransGen.refl

/-- C2: `bind()` on an unlocked property succeeds, sets the flag to `true`
and returns a binding to the owned value; on a locked property it panics
with the message naming the value's type (`tn`) and stating the property
was already bound.  By case analysis on the boolean flag these are the only
two outcomes. -/
theorem bind_succeeds_or_panics {T : Type} (s : Property T) (tn : String) :
    (s.mut_lock = false →
      Property.bind s tn
        = Except.ok { property := s.property, mut_lock := true, live := s.live + 1 })
    ∧ (s.mut_lock = true →
      Property.bind s tn
        = Except.error
            ("PropertyBinding<" ++ tn
              ++ ">: Tried to bind a property that was already bound!"))
    ∧ ((∃ s2, Property.bind s tn = Except.ok s2)
        ∨ (∃ m, Property.bind s tn = Except.error m)) := by
  refine ⟨fun hb => ?_, fun hb => ?_, ?_⟩
  · simp [Property.bind, hb]
  · simp [Property.bind, hb, bindPanicMsg]
  · cases hb : s.mut_lock with
    | false =>
      exact Or.inl ⟨{ property := s.property, mut_lock := true, live := s.live + 1 },
        by simp [Property.bind, hb]⟩
    | true =>
      exact Or.inr ⟨bindPanicMsg tn, by simp [Property.bind, hb]⟩

theorem bind_succeeds_or_panics_witness :
    Property.bind (Property.new (7 : Nat)) "i32"
      = Except.ok { property := 7, mut_lock := true, live := 1 } :=
  (bind_succeeds_or_panics (Property.new (7 : Nat)) "i32").1 rfl

/-- C3: `try_bind()` returns `Ok` iff the flag was `false` at the swap
(and then the flag is set `true`), returns `Err` iff the flag was already
`true`; the outcomes are mutually exclusive and exhaustive, and a failing
call leaves the property's state (in particular the lock flag) completely
unchanged.  The model of `try_bind` has no panicking branch at all, so a
failing call never aborts the calling context. -/
theorem try_bind_ok_iff_was_unlocked {T : Type} (s : Property T) :
    ((Property.try_bind s).1 = Except.ok () ↔ s.mut_lock = false)
    ∧ ((Property.try_bind s).1 = Except.error () ↔ s.mut_lock = true)
    ∧ ((Property.try_bind s).1 = Except.ok ()
        ∨ (Property.try_bind s).1 = Except.error ())
    ∧ ((Property.try_bind s).1 = Except.error () → (Property.try_bind s).2 = s)
    ∧ (s.mut_lock = false → (Property.try_bind s).2.mut_lock = true) := by
  cases hb : s.mut_lock with
  | false =>
    refine ⟨?_, ?_, ?_, ?_, ?_⟩ <;> simp [Property.try_bind, hb]
  | true =>
    refine ⟨?_, ?_, ?_, ?_, ?_⟩ <;> simp [Property.try_bind, hb]
    cases s
    simp_all

theorem try_bind_ok_iff_was_unlocked_witness :
    (Property.try_bind (Property.new (5 : Nat))).1 = Except.ok () :=
  (try_bind_ok_iff_was_unlocked (Property.new (5 : Nat))).1.mpr rfl

/-- C4: dropping a live binding flips the shared lock flag from `true` back
to `false` (the owned value is untouched); if the flag is observed already
`false` at release, the drop panics with the message naming the value's
type (`tn`).  Release is the single state transition performed at the
binding's destruction, and it consumes the binding (the live count
decreases to zero). -/
theorem drop_unlocks_or_panics {T : Type} (s : Property T) (tn : String) :
    (s.mut_lock = true →
      PropertyBinding.drop s tn
        = Except.ok { property := s.property, mut_lock := false, live := s.live - 1 })
    ∧ (s.mut_lock = false →
      PropertyBinding.drop s tn
        = Except.error
            ("PropertyBinding<" ++ tn
              ++ ">: Tried to drop a lock that was already unlocked!")) := by
  refine ⟨fun hb => ?_, fun hb => ?_⟩
  · simp [PropertyBinding.drop, hb]
  · simp [PropertyBinding.drop, hb, dropPanicMsg]

theorem drop_unlocks_or_panics_witness :
    PropertyBinding.drop
        { property := (7 : Nat), mut_lock := true, live := (1 : Nat) } "i32"
      = Except.ok { property := 7, mut_lock := false, live := 0 } :=
  (drop_unlocks_or_panics
    { property := (7 : Nat), mut_lock := true, live := (1 : Nat) } "i32").1 rfl

/-- C6: constructing `Property::new(v)` and immediately calling `bind()`
succeeds (the lock was initialised unlocked, so the swap observes `false`),
and reading through the returned binding's pointer yields exactly `v`. -/
theorem new_bind_deref_round_trip {T : Type} (v : T) (tn : String) :
    Property.bind (Property.new v) tn
      = Except.ok { property := v, mut_lock := true, live := 1 }
    ∧ PropertyBinding.deref
        { property := v, mut_lock := true, live := (1 : Nat) } = v := by
  constructor
  · simp [Property.new, Property.bind]
  · simp [PropertyBinding.deref]

/-- C5: for any values `v`, `w`: `new v`, then `bind` (succeeds, binding
sees `v`), write `w` through the binding, drop the binding (lock returns to
`false`, value stays `w`), then `bind` again: the fresh binding reads `w` —
the mutation survives release and re-bind. -/
theorem write_visible_after_release {T : Type} (v w : T) (tn : String) :
    Property.bind (Property.new v) tn
      = Except.ok { property := v, mut_lock := true, live := 1 }
    ∧ PropertyBinding.deref_mut
        { property := v, mut_lock := true, live := (1 : Nat) } w
      = { property := w, mut_lock := true, live := 1 }
    ∧ PropertyBinding.drop
        { property := w, mut_lock := true, live := (1 : Nat) } tn
      = Except.ok { property := w, mut_lock := false, live := 0 }
    ∧ Property.bind { property := w, mut_lock := false, live := (0 : Nat) } tn
      = Except.ok { property := w, mut_lock := true, live := 1 }
    ∧ PropertyBinding.deref
        { property := w, mut_lock := true, live := (1 : Nat) } = w := by
  refine ⟨?_, ?_, ?_, ?_, ?_⟩ <;>
    simp [Property.new, Property.bind, PropertyBinding.deref_mut,
      PropertyBinding.drop, PropertyBinding.deref]

/-- C7: after a previously issued binding is dropped (released), the
resulting state has `bind()` succeeding (no panic) and `try_bind()`
returning `Ok`, each handing out a fresh binding to the same owned value;
and from that state a further step is always possible, so the property
cycles with no terminal state. -/
theorem rebind_after_release {T : Type} (s s' : Property T) (tn tn2 : String)
    (h : PropertyBinding.drop s tn = Except.ok s') :
    Property.bind s' tn2
      = Except.ok { property := s'.property, mut_lock := true, live := s'.live + 1 }
    ∧ (Property.try_bind s').1 = Except.ok ()
    ∧ s'.property = s.property
    ∧ ∃ s2, Step s' s2 := by
  have hb : s.mut_lock = true := by
    cases hbb : s.mut_lock
    · simp [PropertyBinding.drop, hbb] at h
    · rfl
  simp [PropertyBinding.drop, hb] at h
  refine ⟨?_, ?_, ?_, ?_⟩
  · simp [← h, Property.bind]
  · simp [← h, Property.try_bind]
  · simp [← h]
  · exact ⟨{ property := s'.property, mut_lock := true, live := s'.live + 1 },
      Step.bind_ok s' _ tn2 (by simp [← h, Property.bind])⟩

theorem rebind_after_release_witness :
    Property.bind
        { property := (3 : Nat), mut_lock := false, live := (0 : Nat) } "f32"
      = Except.ok { property := 3, mut_lock := true, live := 1 } :=
  (rebind_after_release
    { property := (3 : Nat), mut_lock := true, live := (1 : Nat) }
    { property := (3 : Nat), mut_lock := false, live := (0 : Nat) }
    "f32" "f32" (by simp [PropertyBinding.drop])).1

/-- A collection of `Property` instances.  In the source every
`Property::new` allocates a fresh `Arc<AtomicBool>` (lib.rs lines 93-98),
so distinct instances share no lock state; here each instance occupies its
own slot of the list and an operation touches exactly the slot it is
applied to. -/
structure World (T : Type) where
  cells : List (Property T)

/-- Run `Property::bind` on the property in slot `i`; `none` when the slot
does not exist or the bind panics. -/
def World.bindAt {T : Type} (w : World T) (i : Nat) (tn : String) :
    Option (World T) :=
  match w.cells[i]? with
  | none => none
  | some s =>
    match Property.bind s tn with
    | Except.ok s2 => some { cells := w.cells.set i s2 }
    | Except.error _ => none

/-- Run `Property::try_bind` on the property in slot `i` (both outcomes
leave a state). -/
def World.tryBindAt {T : Type} (w : World T) (i : Nat) : World T :=
  match w.cells[i]? with
  | none => w
  | some s => { cells := w.cells.set i (Property.try_bind s).2 }

/-- Drop the binding of the property in slot `i`; `none` when the slot does
not exist or the drop panics. -/
def World.dropAt {T : Type} (w : World T) (i : Nat) (tn : String) :
    Option (World T) :=
  match w.cells[i]? with
  | none => none
  | some s =>
    match PropertyBinding.drop s tn with
    | Except.ok s2 => some { cells := w.cells.set i s2 }
    | Except.error _ => none

/-- C8: for distinct property instances `i ≠ j`, a `bind`, `try_bind` or
binding release performed on instance `i` leaves instance `j` — its lock
flag and its owned value — completely unchanged: each property has its own
lock and no operation on one cell reaches another. -/
theorem distinct_cells_independent {T : Type} (w : World T) (i j : Nat)
    (tn : String) (hne : i ≠ j) :
    (∀ w2, World.bindAt w i tn = some w2 → w2.cells[j]? = w.cells[j]?)
    ∧ (World.tryBindAt w i).cells[j]? = w.cells[j]?
    ∧ (∀ w2, World.dropAt w i tn = some w2 → w2.cells[j]? = w.cells[j]?) := by
  refine ⟨?_, ?_, ?_⟩
  · intro w2 h
    unfold World.bindAt at h
    cases hc : w.cells[i]? with
    | none => simp [hc] at h
    | some s =>
      simp only [hc] at h
      cases hbind : Property.bind s tn with
      | error m => simp [hbind] at h
      | ok s2 =>
        simp only [hbind] at h
        cases h
        simp [List.getElem?_set_ne hne]
  · unfold World.tryBindAt
    cases hc : w.cells[i]? with
    | none => rfl
    | some s => simp [List.getElem?_set_ne hne]
  · intro w2 h
    unfold World.dropAt at h
    cases hc : w.cells[i]? with
    | none => simp [hc] at h
    | some s =>
      simp only [hc] at h
      cases hdrop : PropertyBinding.drop s tn with
      | error m => simp [hdrop] at h
      | ok s2 =>
        simp only [hdrop] at h
        cases h
        simp [List.getElem?_set_ne hne]

theorem distinct_cells_independent_witness :
    (World.tryBindAt
        { cells := [Property.new (1 : Nat), Property.new 2] } 0).cells[1]?
      = ({ cells := [Property.new (1 : Nat), Property.new 2] } : World Nat).cells[1]? :=
  (distinct_cells_independent
    { cells := [Property.new (1 : Nat), Property.new 2] } 0 1 "i32"
    (by decide)).2.1

/-- C9: both `bind` and `try_bind` perform their whole lock acquisition as
the single atomic `AtomicBool::swap(true, SeqCst)`, so an interleaving of
two racing acquisitions is one of the two sequential orders of the two
swaps, and the racing callers are symmetric.  Starting unlocked, the
caller whose swap executes first observes `was unlocked` and wins the
binding, and the second caller's `bind` panics while its `try_bind`
returns `Err` — whichever entry points the two callers used; and from any
state whatsoever, two acquisitions in sequence can never both succeed. -/
theorem racing_binds_never_both_succeed {T : Type} (s : Property T)
    (tn1 tn2 : String) (h : s.mut_lock = false) :
    Property.bind s tn1
      = Except.ok { property := s.property, mut_lock := true, live := s.live + 1 }
    ∧ (Property.try_bind s).1 = Except.ok ()
    ∧ (Property.try_bind s).2
        = { property := s.property, mut_lock := true, live := s.live + 1 }
    ∧ Property.bind
        { property := s.property, mut_lock := true, live := s.live + 1 } tn2
      = Except.error (bindPanicMsg tn2)
    ∧ (Property.try_bind
        { property := s.property, mut_lock := true, live := s.live + 1 }).1
      = Except.error ()
    ∧ (∀ s1 s2 s3 : Property T,
        Property.bind s1 tn1 = Except.ok s2 →
          Property.bind s2 tn2 = Except.ok s3 → False)
    ∧ (∀ s1 s2 : Property T,
        Property.bind s1 tn1 = Except.ok s2 →
          (Property.try_bind s2).1 = Except.error ()) := by
  have hlock : ∀ (s1 s2 : Property T) (tn : String),
      Property.bind s1 tn = Except.ok s2 → s2.mut_lock = true := by
    intro s1 s2 tn hok
    cases hb : s1.mut_lock with
    | true => simp [Property.bind, hb] at hok
    | false =>
      simp [Property.bind, hb] at hok
      simp [← hok]
  refine ⟨?_, ?_, ?_, ?_, ?_, ?_, ?_⟩
  · simp [Property.bind, h]
  · simp [Property.try_bind, h]
  · simp [Property.try_bind, h]
  · simp [Property.bind]
  · simp [Property.try_bind]
  · intro s1 s2 s3 h1 h2
    have := hlock s1 s2 tn1 h1
    simp [Property.bind, this] at h2
  · intro s1 s2 h1
    have := hlock s1 s2 tn1 h1
    simp [Property.try_bind, this]

theorem racing_binds_never_both_succeed_witness :
    Property.bind (Property.new (0 : Nat)) "i32"
      = Except.ok { property := 0, mut_lock := true, live := 1 }
    ∧ Property.bind
        { property := (0 : Nat), mut_lock := true, live := (1 : Nat) } "i32"
      = Except.error (bindPanicMsg "i32") :=
  ⟨(racing_binds_never_both_succeed (Property.new (0 : Nat)) "i32" "i32" rfl).1,
   (racing_binds_never_both_succeed (Property.new (0 : Nat)) "i32" "i32"
      rfl).2.2.2.1⟩

/-- Model of `NonNull::new`: succeeds exactly when the raw address is not
the null address 0. -/
def nonNullNew (addr : Nat) : Option Nat :=
  if addr = 0 then none else some addr

/-- State of one `Property<T>` kept at the pointer level: in addition to
the payload and the lock flag, the address `addr` that
`self.property.get()` (the `UnsafeCell::get` raw pointer to the payload)
evaluates to.  For a live property this address is the address of a real
object, which in Rust is never null; theorems take that as the hypothesis
`addr ≠ 0`. -/
structure PropertyMem (T : Type) where
  property : T
  addr : Nat
  mut_lock : Bool
  deriving Repr, DecidableEq

/-- Model of `Property::bind` (lib.rs lines 103-112) keeping the
`NonNull::new(self.property.get()).unwrap()` step explicit: after the swap
succeeds, `unwrap` on a `None` would be a second panic site, modelled as
`Except.error` with rustc's unwrap message. -/
def PropertyMem.bind {T : Type} (s : PropertyMem T) (tn : String) :
    Except String (Nat × PropertyMem T) :=
  let was_locked := s.mut_lock
  let s1 : PropertyMem T := { s with mut_lock := true }
  if was_locked then
    Except.error (bindPanicMsg tn)
  else
    match nonNullNew s.addr with
    | some p => Except.ok (p, s1)
    | none => Except.error "called Option::unwrap() on a None value"

/-- Model of `Property::try_bind` (lib.rs lines 117-128) at the pointer
level: the outer `Except String` is the panic channel, the inner value the
returned `Result`. -/
def PropertyMem.try_bind {T : Type} (s : PropertyMem T) :
    Except String (Except Unit (Nat × PropertyMem T)) :=
  let was_locked := s.mut_lock
  let s1 : PropertyMem T := { s with mut_lock := true }
  if was_locked then
    Except.ok (Except.error ())
  else
    match nonNullNew s.addr with
    | some p => Except.ok (Except.ok (p, s1))
    | none => Except.error "called Option::unwrap() on a None value"

/-- C10: when the payload's address is non-null — which Rust guarantees
for the `UnsafeCell::get` pointer of a live `Property` — the
`NonNull::new(...).unwrap()` succeeds and returns that very pointer, so
after a successful lock acquisition the binding construction cannot fail:
`bind` panics only through the already-bound check (its only error is the
already-bound message, and only when the flag was `true`), and `try_bind`
never panics at all. -/
theorem unwrap_after_acquire_never_panics {T : Type} (s : PropertyMem T)
    (tn : String) (h : s.addr ≠ 0) :
    nonNullNew s.addr = some s.addr
    ∧ (s.mut_lock = false →
        PropertyMem.bind s tn = Except.ok (s.addr, { s with mut_lock := true }))
    ∧ (∀ m, PropertyMem.bind s tn = Except.error m →
        m = bindPanicMsg tn ∧ s.mut_lock = true)
    ∧ (∀ m, PropertyMem.try_bind s ≠ Except.error m) := by
  refine ⟨?_, fun hb => ?_, ?_, ?_⟩
  · simp [nonNullNew, h]
  · simp [PropertyMem.bind, hb, nonNullNew, h]
  · intro m hm
    cases hb : s.mut_lock with
    | true =>
      simp [PropertyMem.bind, hb] at hm
      exact ⟨hm.symm, rfl⟩
    | false =>
      simp [PropertyMem.bind, hb, nonNullNew, h] at hm
  · intro m hm
    cases hb : s.mut_lock with
    | true => simp [PropertyMem.try_bind, hb] at hm
    | false => simp [PropertyMem.try_bind, hb, nonNullNew, h] at hm

theorem unwrap_after_acquire_never_panics_witness :
    PropertyMem.bind
        { property := (0 : Nat), addr := 16, mut_lock := false } "i32"
      = Except.ok
          (16, { property := (0 : Nat), addr := 16, mut_lock := true }) :=
  (unwrap_after_acquire_never_panics
    { property := (0 : Nat), addr := 16, mut_lock := false } "i32"
    (by decide)).2.1 rfl

end Binder
